import Mathlib

/-!
Verification development for the SOCKS5 front-end in
`src/client/src/socks5/mod.rs` (MetaCubeX/tuic client).

The per-connection behaviour (`Socks5Connection::process`, `::handshake`,
`::forward`) and the server (`Socks5Server::new`, `::run`) are shallowly
embedded as pure Lean functions.  Socket I/O, the manager channel and the
one-shot acceptor are modelled by an explicit per-connection `Script`
recording the outcome of each external interaction, and each embedded
function returns the Rust function's result together with the ordered
list of observable events (`Event`) it performed on the streams.

The wire-codec submodule `protocol` and the `connection`/`convert`
modules are not part of the given source tree; the few facts about them
that the embedding needs (method identifiers, the password check, the
error taxonomy) are modelled from the specification and are marked as
such in their doc comments.
-/

namespace Tuic

/-- A raw byte on the wire. -/
abbrev Byte := Nat

/-- Payload of an I/O error (`std::io::Error`); kept abstract as a code. -/
abbrev IoErr := Nat

/-- Payload of a protocol error (`socks5::protocol::Error`); kept abstract. -/
abbrev Socks5Err := Nat

/-- SOCKS5 reply codes (spec §6: `0x00 Succeeded .. 0x08 AddressTypeNotSupported`). -/
inductive Reply
  | Succeeded
  | GeneralFailure
  | ConnectionNotAllowed
  | NetworkUnreachable
  | HostUnreachable
  | ConnectionRefused
  | TtlExpired
  | CommandNotSupported
  | AddressTypeNotSupported
  deriving DecidableEq, Repr

/-- SOCKS5 commands. -/
inductive Command
  | Connect
  | Bind
  | UdpAssociate
  deriving DecidableEq, Repr

/-- SOCKS5 address: domain + port, IPv4 + port or IPv6 + port. -/
inductive Address
  | Domain (name : String) (port : Nat)
  | Ipv4 (a b c d : Byte) (port : Nat)
  | Ipv6 (s0 s1 s2 s3 s4 s5 s6 s7 : Nat) (port : Nat)
  deriving DecidableEq, Repr

/-- The wildcard bound address `0.0.0.0:0`, i.e. the Lean image of
`SocketAddr::from(([0, 0, 0, 0], 0)).into()` used in `process`. -/
def wildcardAddr : Address := Address.Ipv4 0 0 0 0 0

/-- A SOCKS5 connect `Request` (version byte implicit): command + address. -/
structure Request where
  command : Command
  address : Address
  deriving DecidableEq, Repr

/-- A SOCKS5 `Response`: reply code + bound address. -/
structure Response where
  reply : Reply
  address : Address
  deriving DecidableEq, Repr

/-- `Response::new(reply, addr)`. -/
def Response.new (reply : Reply) (address : Address) : Response :=
  ⟨reply, address⟩

/-- A `HandshakeRequest`: the client's offered method identifiers. -/
structure HandshakeRequest where
  methods : List Byte
  deriving DecidableEq, Repr

/-- A password sub-negotiation request (`HandshakePasswordRequest`). -/
structure HandshakePasswordRequest where
  username : String
  password : String
  deriving DecidableEq, Repr

/-- `Socks5AuthMethod` from the `protocol::handshake` module:
the server-side selected authentication method. -/
inductive Socks5AuthMethod
  | NONE
  | GSSAPI
  | PASSWORD (username password : String)
  | UNACCEPTABLE
  deriving DecidableEq, Repr

/-- Modelled from the spec: `Socks5AuthMethod::as_u8` lives in the
`protocol` module, which is absent from `src/`; the spec fixes the
identifiers as `0x00 None, 0x01 GSSAPI, 0x02 Password, 0xFF Unacceptable`. -/
def Socks5AuthMethod.as_u8 : Socks5AuthMethod → Byte
  | .NONE => 0x00
  | .GSSAPI => 0x01
  | .PASSWORD _ _ => 0x02
  | .UNACCEPTABLE => 0xFF

/-- `Socks5PasswordAuthStatus` from the `protocol` module. -/
inductive Socks5PasswordAuthStatus
  | SUCCESS
  | FAILED
  deriving DecidableEq, Repr

/-- Modelled from the spec: the status byte of a `PasswordAuthResponse` is
`0x00` for Success and a nonzero byte for Failed (`protocol` module absent
from `src/`); `0xFF` stands for the Failed byte. -/
def Socks5PasswordAuthStatus.as_u8 : Socks5PasswordAuthStatus → Byte
  | .SUCCESS => 0x00
  | .FAILED => 0xFF

/-- Modelled from the spec: `HandshakePasswordRequest::authenticated`
(in the absent `protocol` module) compares username and password for
byte-exact equality against the configured pair; any other selected
method does not authenticate. -/
def HandshakePasswordRequest.authenticated
    (req : HandshakePasswordRequest) (auth : Socks5AuthMethod) : Bool :=
  match auth with
  | .PASSWORD u p => req.username == u && req.password == p
  | _ => false

/-- Modelled from the spec: the manager's typed connection failure
(`ConnectionError` in the absent `connection` module) distinguishes
tunnel-protocol-classified (`Tuic`) errors, carried as `ε`, from every
other failure kind. -/
inductive ConnErr (ε : Type)
  | tuic (e : ε)
  | other (code : Nat)
  deriving DecidableEq, Repr

/-- Outcome of awaiting the one-shot acceptor `res_receiver`:
`streams` is `Ok(Ok((send, recv)))`, `failure e` is `Ok(Err(e))`, and
`recvError` is `Err(RecvError)` (acceptor dropped unresolved). -/
inductive AcceptorOutcome (ε : Type)
  | streams
  | failure (e : ConnErr ε)
  | recvError
  deriving DecidableEq, Repr

/-- The per-connection script: the outcome of every external interaction
`process`/`handshake` can perform, in program order.  A `none` write
outcome means the write succeeded; `some e` means it failed with `e`. -/
structure Script (ε : Type) where
  hsRead : Except Socks5Err HandshakeRequest
  hsWrite : Option Socks5Err
  pwRead : Except Socks5Err HandshakePasswordRequest
  pwWrite : Option Socks5Err
  reqRead : Except Socks5Err Request
  sendOk : Bool
  acceptor : AcceptorOutcome ε
  resWrite : Option Socks5Err
  deriving Repr

/-- Observable events a connection performs on its streams, in order. -/
inductive Event
  | readHandshake (r : HandshakeRequest)
  | writeHandshake (method : Byte)
  | readPassword (r : HandshakePasswordRequest)
  | writePassword (status : Byte)
  | readRequest (r : Request)
  | sendRequest (c : Command) (a : Address)
  | writeResponse (r : Response)
  | forwardRun
  deriving DecidableEq, Repr

/-- `Socks5Connection::handshake` (src lines 132–176), as a function of
the selected method and the script: returns the Rust result
(`Result<bool, Socks5Error>`) and the ordered events performed. -/
def handshake (auth : Socks5AuthMethod) (s : Script ε) :
    Except Socks5Err Bool × List Event :=
  match auth with
  | .NONE =>
    match s.hsRead with
    | .error e => (.error e, [])
    | .ok hsReq =>
      if hsReq.methods.contains Socks5AuthMethod.NONE.as_u8 then
        match s.hsWrite with
        | some e => (.error e, [.readHandshake hsReq])
        | none =>
          (.ok true,
            [.readHandshake hsReq, .writeHandshake Socks5AuthMethod.NONE.as_u8])
      else
        match s.hsWrite with
        | some e => (.error e, [.readHandshake hsReq])
        | none =>
          (.ok false,
            [.readHandshake hsReq,
              .writeHandshake Socks5AuthMethod.UNACCEPTABLE.as_u8])
  | .PASSWORD u p =>
    match s.hsRead with
    | .error e => (.error e, [])
    | .ok hsReq =>
      if hsReq.methods.contains (Socks5AuthMethod.PASSWORD u p).as_u8 then
        match s.hsWrite with
        | some e => (.error e, [.readHandshake hsReq])
        | none =>
          let tr : List Event :=
            [.readHandshake hsReq,
              .writeHandshake (Socks5AuthMethod.PASSWORD u p).as_u8]
          match s.pwRead with
          | .error e => (.error e, tr)
          | .ok pwReq =>
            if pwReq.authenticated (Socks5AuthMethod.PASSWORD u p) then
              match s.pwWrite with
              | some e => (.error e, tr ++ [.readPassword pwReq])
              | none =>
                (.ok true,
                  tr ++ [.readPassword pwReq,
                    .writePassword Socks5PasswordAuthStatus.SUCCESS.as_u8])
            else
              match s.pwWrite with
              | some e => (.error e, tr ++ [.readPassword pwReq])
              | none =>
                (.ok false,
                  tr ++ [.readPassword pwReq,
                    .writePassword Socks5PasswordAuthStatus.FAILED.as_u8])
      else
        match s.hsWrite with
        | some e => (.error e, [.readHandshake hsReq])
        | none =>
          (.ok false,
            [.readHandshake hsReq,
              .writeHandshake Socks5AuthMethod.UNACCEPTABLE.as_u8])
  | _ => (.ok false, [])

/-- The reply selected from a manager connection failure in `process`
(src lines 108–111): the specific `as_reply` mapping for a
`Tuic`-classified error, `GeneralFailure` for every other kind. -/
def connErrReply (asReply : ε → Reply) : ConnErr ε → Reply
  | .tuic e => asReply e
  | .other _ => Reply.GeneralFailure

/-- `Socks5ConnectionError` (src lines 190–198). -/
inductive Socks5ConnectionError
  | Io (e : IoErr)
  | Socks5 (e : Socks5Err)
  | ConnectionManager
  deriving DecidableEq, Repr

/-- `Socks5Connection::process` (src lines 83–130), as a function of
the `Tuic`-error-to-reply mapping `asReply` (the composite
`Socks5Error::from(err).as_reply()`, whose code lives in the absent
`protocol` module and is therefore kept abstract), the selected method
and the script.  Returns the Rust result and the ordered events. -/
def process (asReply : ε → Reply) (auth : Socks5AuthMethod) (s : Script ε) :
    Except Socks5ConnectionError Unit × List Event :=
  match handshake auth s with
  | (.error e, tr) => (.error (.Socks5 e), tr)
  | (.ok false, tr) => (.ok (), tr)
  | (.ok true, tr) =>
    match s.reqRead with
    | .error e => (.error (.Socks5 e), tr)
    | .ok req =>
      let tr := tr ++ [.readRequest req, .sendRequest req.command req.address]
      if s.sendOk then
        match s.acceptor with
        | .streams =>
          match s.resWrite with
          | some e => (.error (.Socks5 e), tr)
          | none =>
            (.ok (),
              tr ++ [.writeResponse (Response.new Reply.Succeeded wildcardAddr),
                .forwardRun])
        | .failure err =>
          let reply := connErrReply asReply err
          match s.resWrite with
          | some e => (.error (.Socks5 e), tr)
          | none =>
            (.ok (), tr ++ [.writeResponse (Response.new reply wildcardAddr)])
        | .recvError =>
          match s.resWrite with
          | some e => (.error (.Socks5 e), tr)
          | none =>
            (.error .ConnectionManager,
              tr ++ [.writeResponse (Response.new Reply.GeneralFailure wildcardAddr)])
      else
        match s.resWrite with
        | some e => (.error (.Socks5 e), tr)
        | none =>
          (.error .ConnectionManager,
            tr ++ [.writeResponse (Response.new Reply.GeneralFailure wildcardAddr)])

/-- Number of SOCKS5 `Response` writes in a trace. -/
def countResponses (tr : List Event) : Nat :=
  tr.countP fun ev => match ev with | .writeResponse _ => true | _ => false

/-- Number of SOCKS5 `Request` reads in a trace. -/
def countRequests (tr : List Event) : Nat :=
  tr.countP fun ev => match ev with | .readRequest _ => true | _ => false

/-- Number of Forwarder runs in a trace. -/
def countForwards (tr : List Event) : Nat :=
  tr.countP fun ev => match ev with | .forwardRun => true | _ => false

/-- The configuration fields `Socks5Server::new` consults. -/
structure Config where
  username : Option String
  password : Option String
  deriving DecidableEq, Repr

/-- The auth-method selection of `Socks5Server::new` (src lines 29–44):
`PASSWORD{username, password}` when both credentials are configured
(the `expect` calls are unreachable panics under the guard, modelled by
`Option.getD` below the `isSome` check), else `NONE`. -/
def socks5ServerNewAuthMethod (config : Config) : Socks5AuthMethod :=
  if config.username.isSome && config.password.isSome then
    Socks5AuthMethod.PASSWORD (config.username.getD "") (config.password.getD "")
  else
    Socks5AuthMethod.NONE

/-- Modelled from the spec: `ClientError` (crate root, absent from `src/`)
is the startup error type of `run`; bind failure is its only source here. -/
inductive ClientError
  | bindFailed (e : IoErr)
  deriving DecidableEq, Repr

/-- `Socks5Server::run` (src lines 46–61), over a script of the bind
outcome and a finite prefix of the accept outcomes (`Nat` identifies an
accepted stream).  Returns the Rust result together with the list of
streams for which a connection task was spawned; the
`while let Ok((stream, _)) = ... accept().await` loop spawns a task per
successful accept and exits—returning `Ok(())`—at the first accept
error. -/
def socks5ServerRun (bind : Option IoErr) (accepts : List (Except IoErr Nat)) :
    Except ClientError Unit × List Nat :=
  match bind with
  | some e => (.error (.bindFailed e), [])
  | none =>
    (.ok (),
      (accepts.takeWhile fun a => a.toBool).filterMap fun a => a.toOption)

/-- One direction of the forwarding bridge (one `io::copy` future in
`Socks5Connection::forward`, src lines 178–187), abstracted by how many
polls it needs to complete and whether it completes with `Ok`
(end-of-stream) or with an I/O error. -/
structure CopyDir where
  polls : Nat
  ok : Bool
  deriving DecidableEq, Repr

/-- The scheduling of `tokio::try_join!(remote_to_local, local_to_remote)`
in `forward`: both branches are polled round by round (first branch
first within a round); the join completes when both branches have
completed with `Ok`, or immediately when a branch completes with `Err`,
dropping—cancelling—the other branch.  Returns how many polls each
branch actually executed. -/
def tryJoinExec (a b : CopyDir) : Nat × Nat :=
  if a.ok && b.ok then
    (a.polls, b.polls)
  else if !a.ok && (b.ok || a.polls ≤ b.polls) then
    (a.polls, min b.polls (a.polls - 1))
  else
    (min a.polls b.polls, b.polls)

/-! ## Helper lemmas -/

/-- The handshake phase never reads a `Request`, never writes a `Response`
and never runs the Forwarder: its trace only holds handshake and
password-sub-negotiation events. -/
theorem handshake_counts (auth : Socks5AuthMethod) (s : Script ε) :
    countResponses (handshake auth s).2 = 0 ∧
    countRequests (handshake auth s).2 = 0 ∧
    countForwards (handshake auth s).2 = 0 := by
  obtain ⟨hsRead, hsWrite, pwRead, pwWrite, reqRead, sendOk, acceptor, resWrite⟩ := s
  cases auth <;> cases hsRead <;> cases hsWrite <;> cases pwRead <;> cases pwWrite <;>
    simp only [handshake] <;>
    first
      | (split_ifs <;> simp [countResponses, countRequests, countForwards])
      | simp [countResponses, countRequests, countForwards]

/-- `countResponses` distributes over appended traces. -/
theorem countResponses_append (l1 l2 : List Event) :
    countResponses (l1 ++ l2) = countResponses l1 + countResponses l2 := by
  simp [countResponses, List.countP_append]

/-- `countRequests` distributes over appended traces. -/
theorem countRequests_append (l1 l2 : List Event) :
    countRequests (l1 ++ l2) = countRequests l1 + countRequests l2 := by
  simp [countRequests, List.countP_append]

/-- `countForwards` distributes over appended traces. -/
theorem countForwards_append (l1 l2 : List Event) :
    countForwards (l1 ++ l2) = countForwards l1 + countForwards l2 := by
  simp [countForwards, List.countP_append]

/-- A trace with zero Forwarder runs does not hold `forwardRun`. -/
theorem forwardRun_notMem_of_count_zero {tr : List Event}
    (h : countForwards tr = 0) : Event.forwardRun ∉ tr := by
  intro hmem
  have := List.countP_eq_zero.mp h _ hmem
  simp at this

/-- In a trace with zero `Response` writes, no event is a `Response`
write. -/
theorem respWildcard_of_count_zero {tr : List Event}
    (h : countResponses tr = 0) :
    ∀ ev ∈ tr, ∀ resp : Response, ev = Event.writeResponse resp →
      resp.address = wildcardAddr := by
  intro ev hev resp heq
  have hne := List.countP_eq_zero.mp h ev hev
  subst heq
  simp at hne

/-- Every `Response` any run of `process` writes carries the wildcard
bound address `0.0.0.0:0`. -/
theorem process_response_wildcard (asReply : ε → Reply)
    (auth : Socks5AuthMethod) (s : Script ε) :
    ∀ ev ∈ (process asReply auth s).2, ∀ resp : Response,
      ev = Event.writeResponse resp → resp.address = wildcardAddr := by
  have hc := handshake_counts auth s
  have hhs := respWildcard_of_count_zero hc.1
  cases hh : handshake auth s with
  | mk r tr =>
    rw [hh] at hhs
    cases r with
    | error e =>
      intro ev hev
      simp only [process, hh] at hev
      exact hhs ev hev
    | ok b =>
      cases b with
      | false =>
        intro ev hev
        simp only [process, hh] at hev
        exact hhs ev hev
      | true =>
        cases hreq : s.reqRead with
        | error e =>
          intro ev hev
          simp only [process, hh, hreq] at hev
          exact hhs ev hev
        | ok req =>
          intro ev hev resp heq
          subst heq
          cases hw : s.resWrite <;> cases hsend : s.sendOk <;>
            cases hacc : s.acceptor <;>
            simp only [process, hh, hreq, hw, hsend, hacc] at hev <;>
            first
              | (rcases List.mem_append.mp hev with hev2 | hev2
                 · rcases List.mem_append.mp hev2 with hev3 | hev3
                   · exact hhs _ hev3 _ rfl
                   · simp_all [Response.new, wildcardAddr]
                 · simp_all [Response.new, wildcardAddr])
              | (rcases List.mem_append.mp hev with hev2 | hev2
                 · exact hhs _ hev2 _ rfl
                 · simp_all [Response.new, wildcardAddr])

/-! ## Claims -/

/-- C2: when the selected method is `NONE` and the handshake read and
write succeed, the handshake returns `Ok(contains 0x00)`; on success the
response echoes `0x00`, otherwise it is `Unacceptable` (`0xFF`) and no
further bytes are read (the trace is exactly the one read and the one
write). -/
theorem c2_handshake_none (s : Script ε) (r : HandshakeRequest)
    (hr : s.hsRead = .ok r) (hw : s.hsWrite = none) :
    handshake Socks5AuthMethod.NONE s =
      (.ok (r.methods.contains 0x00),
        [Event.readHandshake r,
          Event.writeHandshake (if r.methods.contains 0x00 then 0x00 else 0xFF)]) := by
  cases hc : r.methods.contains 0x00 <;>
    simp [handshake, hr, hw, Socks5AuthMethod.as_u8, hc] <;> simp_all

/-- Witness for C2 at a concrete script. -/
theorem c2_handshake_none_witness :
    handshake Socks5AuthMethod.NONE
      (⟨.ok ⟨[0x00]⟩, none, .ok ⟨"", ""⟩, none,
        .ok ⟨.Connect, .Domain "example.com" 80⟩, true, .streams, none⟩ :
        Script Unit) =
      (.ok ((⟨[0x00]⟩ : HandshakeRequest).methods.contains 0x00),
        [Event.readHandshake ⟨[0x00]⟩,
          Event.writeHandshake
            (if (⟨[0x00]⟩ : HandshakeRequest).methods.contains 0x00 then 0x00
              else 0xFF)]) :=
  c2_handshake_none _ _ rfl rfl

/-- C3: when the selected method is `PASSWORD` and the scripted reads
and writes succeed: if the client did not offer `0x02` the handshake
replies `Unacceptable` and returns `false` without reading a password
request; if it did, the handshake acknowledges with `0x02`, reads
exactly one password request and returns `true` with a `Success` reply
iff username and password are byte-exact matches, else replies `Failed`
and returns `false`. -/
theorem c3_handshake_password (s : Script ε) (u p : String)
    (r : HandshakeRequest) (q : HandshakePasswordRequest)
    (hr : s.hsRead = .ok r) (hw : s.hsWrite = none)
    (hq : s.pwRead = .ok q) (hw2 : s.pwWrite = none) :
    (r.methods.contains 0x02 = false →
      handshake (Socks5AuthMethod.PASSWORD u p) s =
        (.ok false, [Event.readHandshake r, Event.writeHandshake 0xFF])) ∧
    (r.methods.contains 0x02 = true →
      handshake (Socks5AuthMethod.PASSWORD u p) s =
        (.ok (q.username == u && q.password == p),
          [Event.readHandshake r, Event.writeHandshake 0x02,
            Event.readPassword q,
            Event.writePassword
              (if q.username == u && q.password == p then
                Socks5PasswordAuthStatus.SUCCESS.as_u8
              else Socks5PasswordAuthStatus.FAILED.as_u8)])) := by
  constructor <;> intro hc <;>
    cases ha : (q.username == u && q.password == p) <;>
    simp [handshake, hr, hw, hq, hw2, Socks5AuthMethod.as_u8, hc, ha,
      HandshakePasswordRequest.authenticated] <;> simp_all

/-- Witness for C3 at a concrete script with matching credentials. -/
theorem c3_handshake_password_witness :
    handshake (Socks5AuthMethod.PASSWORD "user" "pass")
      (⟨.ok ⟨[0x02]⟩, none, .ok ⟨"user", "pass"⟩, none,
        .ok ⟨.Connect, .Domain "example.com" 80⟩, true, .streams, none⟩ :
        Script Unit) =
      (.ok (("user" : String) == "user" && ("pass" : String) == "pass"),
        [Event.readHandshake ⟨[0x02]⟩, Event.writeHandshake 0x02,
          Event.readPassword ⟨"user", "pass"⟩,
          Event.writePassword
            (if ("user" : String) == "user" && ("pass" : String) == "pass" then
              Socks5PasswordAuthStatus.SUCCESS.as_u8
            else Socks5PasswordAuthStatus.FAILED.as_u8)]) :=
  (c3_handshake_password
    (⟨.ok ⟨[0x02]⟩, none, .ok ⟨"user", "pass"⟩, none,
      .ok ⟨.Connect, .Domain "example.com" 80⟩, true, .streams, none⟩ :
      Script Unit)
    "user" "pass" ⟨[0x02]⟩ ⟨"user", "pass"⟩
    rfl rfl rfl rfl).2 rfl

/-- C4: when the handshake succeeded and the acceptor resolves with a
failure, `process` writes exactly one `Response` whose reply is the
specific `as_reply` mapping for a `Tuic`-classified error and
`GeneralFailure` for any other failure kind, then returns `Ok` without
running the Forwarder. -/
theorem c4_acceptor_failure (asReply : ε → Reply) (auth : Socks5AuthMethod)
    (s : Script ε) (tr0 : List Event) (req : Request) (e : ConnErr ε)
    (hh : handshake auth s = (.ok true, tr0))
    (hr : s.reqRead = .ok req) (hsend : s.sendOk = true)
    (hacc : s.acceptor = .failure e) (hw : s.resWrite = none) :
    process asReply auth s =
      (.ok (),
        tr0 ++ [Event.readRequest req, Event.sendRequest req.command req.address,
          Event.writeResponse
            (Response.new (connErrReply asReply e) wildcardAddr)]) ∧
    countResponses (process asReply auth s).2 = 1 ∧
    countForwards (process asReply auth s).2 = 0 := by
  have hc := handshake_counts auth s
  rw [hh] at hc
  have hmain : process asReply auth s =
      (.ok (),
        tr0 ++ [Event.readRequest req, Event.sendRequest req.command req.address,
          Event.writeResponse
            (Response.new (connErrReply asReply e) wildcardAddr)]) := by
    simp [process, hh, hr, hsend, hacc, hw]
  have hc1 : countResponses tr0 = 0 := hc.1
  have hc3 : countForwards tr0 = 0 := hc.2.2
  have htr : (process asReply auth s).2 =
      tr0 ++ [Event.readRequest req, Event.sendRequest req.command req.address,
        Event.writeResponse
          (Response.new (connErrReply asReply e) wildcardAddr)] := by
    rw [hmain]
  refine ⟨hmain, ?_, ?_⟩
  · rw [htr, countResponses_append, hc1]
    rfl
  · rw [htr, countForwards_append, hc3]
    rfl

/-- Witness for C4 at a concrete script with a `Tuic`-classified failure. -/
theorem c4_acceptor_failure_witness :
    process (fun _ : Unit => Reply.HostUnreachable) Socks5AuthMethod.NONE
        (⟨.ok ⟨[0x00]⟩, none, .ok ⟨"", ""⟩, none,
          .ok ⟨.Connect, .Domain "example.com" 80⟩, true,
          .failure (.tuic ()), none⟩ : Script Unit) =
      (.ok (),
        [Event.readHandshake ⟨[0x00]⟩, Event.writeHandshake 0x00] ++
          [Event.readRequest ⟨.Connect, .Domain "example.com" 80⟩,
            Event.sendRequest Command.Connect (.Domain "example.com" 80),
            Event.writeResponse (Response.new Reply.HostUnreachable wildcardAddr)]) ∧
    countResponses (process (fun _ : Unit => Reply.HostUnreachable)
      Socks5AuthMethod.NONE
      (⟨.ok ⟨[0x00]⟩, none, .ok ⟨"", ""⟩, none,
        .ok ⟨.Connect, .Domain "example.com" 80⟩, true,
        .failure (.tuic ()), none⟩ : Script Unit)).2 = 1 ∧
    countForwards (process (fun _ : Unit => Reply.HostUnreachable)
      Socks5AuthMethod.NONE
      (⟨.ok ⟨[0x00]⟩, none, .ok ⟨"", ""⟩, none,
        .ok ⟨.Connect, .Domain "example.com" 80⟩, true,
        .failure (.tuic ()), none⟩ : Script Unit)).2 = 0 :=
  c4_acceptor_failure (fun _ : Unit => Reply.HostUnreachable)
    Socks5AuthMethod.NONE
    ⟨.ok ⟨[0x00]⟩, none, .ok ⟨"", ""⟩, none,
      .ok ⟨.Connect, .Domain "example.com" 80⟩, true,
      .failure (.tuic ()), none⟩
    [Event.readHandshake ⟨[0x00]⟩, Event.writeHandshake 0x00]
    ⟨.Connect, .Domain "example.com" 80⟩ (.tuic ())
    rfl rfl rfl rfl rfl

/-- C5: when the send on the manager channel fails, `process` writes a
`GeneralFailure`/wildcard `Response` and returns the distinguished
`ConnectionManager` error, which is distinct from the `Io` and `Socks5`
variants. -/
theorem c5_send_failure (asReply : ε → Reply) (auth : Socks5AuthMethod)
    (s : Script ε) (tr0 : List Event) (req : Request)
    (hh : handshake auth s = (.ok true, tr0))
    (hr : s.reqRead = .ok req) (hsend : s.sendOk = false)
    (hw : s.resWrite = none) :
    process asReply auth s =
      (.error Socks5ConnectionError.ConnectionManager,
        tr0 ++ [Event.readRequest req, Event.sendRequest req.command req.address,
          Event.writeResponse (Response.new Reply.GeneralFailure wildcardAddr)]) ∧
    (∀ e2 : IoErr, Socks5ConnectionError.ConnectionManager ≠ .Io e2) ∧
    (∀ e2 : Socks5Err, Socks5ConnectionError.ConnectionManager ≠ .Socks5 e2) := by
  refine ⟨?_, fun e2 => by simp, fun e2 => by simp⟩
  simp [process, hh, hr, hsend, hw]

/-- Witness for C5 at a concrete script whose channel send fails. -/
theorem c5_send_failure_witness :
    process (fun _ : Unit => Reply.HostUnreachable) Socks5AuthMethod.NONE
        (⟨.ok ⟨[0x00]⟩, none, .ok ⟨"", ""⟩, none,
          .ok ⟨.Connect, .Ipv4 127 0 0 1 80⟩, false, .streams, none⟩ :
          Script Unit) =
      (.error Socks5ConnectionError.ConnectionManager,
        [Event.readHandshake ⟨[0x00]⟩, Event.writeHandshake 0x00] ++
          [Event.readRequest ⟨.Connect, .Ipv4 127 0 0 1 80⟩,
            Event.sendRequest Command.Connect (.Ipv4 127 0 0 1 80),
            Event.writeResponse (Response.new Reply.GeneralFailure wildcardAddr)]) ∧
    (∀ e2 : IoErr, Socks5ConnectionError.ConnectionManager ≠ .Io e2) ∧
    (∀ e2 : Socks5Err, Socks5ConnectionError.ConnectionManager ≠ .Socks5 e2) :=
  c5_send_failure (fun _ : Unit => Reply.HostUnreachable)
    Socks5AuthMethod.NONE
    ⟨.ok ⟨[0x00]⟩, none, .ok ⟨"", ""⟩, none,
      .ok ⟨.Connect, .Ipv4 127 0 0 1 80⟩, false, .streams, none⟩
    [Event.readHandshake ⟨[0x00]⟩, Event.writeHandshake 0x00]
    ⟨.Connect, .Ipv4 127 0 0 1 80⟩
    rfl rfl rfl rfl

/-- C6: when the acceptor resolves with stream halves, `process` writes
exactly one `Succeeded`/wildcard `Response` and the Forwarder runs only
after that write (the trace ends with the write followed by
`forwardRun`); moreover every `Response` any run of `process` ever
writes carries the wildcard address `0.0.0.0:0`. -/
theorem c6_success_response (asReply : ε → Reply) (auth : Socks5AuthMethod)
    (s : Script ε) (tr0 : List Event) (req : Request)
    (hh : handshake auth s = (.ok true, tr0))
    (hr : s.reqRead = .ok req) (hsend : s.sendOk = true)
    (hacc : s.acceptor = .streams) (hw : s.resWrite = none) :
    process asReply auth s =
      (.ok (),
        tr0 ++ [Event.readRequest req, Event.sendRequest req.command req.address,
          Event.writeResponse (Response.new Reply.Succeeded wildcardAddr),
          Event.forwardRun]) ∧
    countResponses (process asReply auth s).2 = 1 ∧
    (∀ (asR : ε → Reply) (auth2 : Socks5AuthMethod) (s2 : Script ε)
        (resp : Response),
      Event.writeResponse resp ∈ (process asR auth2 s2).2 →
        resp.address = wildcardAddr) := by
  have hc := handshake_counts auth s
  rw [hh] at hc
  have hmain : process asReply auth s =
      (.ok (),
        tr0 ++ [Event.readRequest req, Event.sendRequest req.command req.address,
          Event.writeResponse (Response.new Reply.Succeeded wildcardAddr),
          Event.forwardRun]) := by
    simp [process, hh, hr, hsend, hacc, hw]
  have hc1 : countResponses tr0 = 0 := hc.1
  have htr : (process asReply auth s).2 =
      tr0 ++ [Event.readRequest req, Event.sendRequest req.command req.address,
        Event.writeResponse (Response.new Reply.Succeeded wildcardAddr),
        Event.forwardRun] := by
    rw [hmain]
  refine ⟨hmain, ?_, fun asR auth2 s2 resp hmem =>
    process_response_wildcard asR auth2 s2 _ hmem resp rfl⟩
  rw [htr, countResponses_append, hc1]
  rfl

/-- Witness for C6 at a concrete script with a successful acceptor. -/
theorem c6_success_response_witness :
    process (fun _ : Unit => Reply.HostUnreachable) Socks5AuthMethod.NONE
        (⟨.ok ⟨[0x00]⟩, none, .ok ⟨"", ""⟩, none,
          .ok ⟨.Connect, .Domain "example.com" 80⟩, true, .streams, none⟩ :
          Script Unit) =
      (.ok (),
        [Event.readHandshake ⟨[0x00]⟩, Event.writeHandshake 0x00] ++
          [Event.readRequest ⟨.Connect, .Domain "example.com" 80⟩,
            Event.sendRequest Command.Connect (.Domain "example.com" 80),
            Event.writeResponse (Response.new Reply.Succeeded wildcardAddr),
            Event.forwardRun]) ∧
    countResponses (process (fun _ : Unit => Reply.HostUnreachable)
      Socks5AuthMethod.NONE
      (⟨.ok ⟨[0x00]⟩, none, .ok ⟨"", ""⟩, none,
        .ok ⟨.Connect, .Domain "example.com" 80⟩, true, .streams, none⟩ :
        Script Unit)).2 = 1 ∧
    (∀ (asR : Unit → Reply) (auth2 : Socks5AuthMethod) (s2 : Script Unit)
        (resp : Response),
      Event.writeResponse resp ∈ (process asR auth2 s2).2 →
        resp.address = wildcardAddr) :=
  c6_success_response (fun _ : Unit => Reply.HostUnreachable)
    Socks5AuthMethod.NONE
    ⟨.ok ⟨[0x00]⟩, none, .ok ⟨"", ""⟩, none,
      .ok ⟨.Connect, .Domain "example.com" 80⟩, true, .streams, none⟩
    [Event.readHandshake ⟨[0x00]⟩, Event.writeHandshake 0x00]
    ⟨.Connect, .Domain "example.com" 80⟩
    rfl rfl rfl rfl rfl

/-- C10: when the channel send succeeds but the acceptor is dropped
unresolved (the one-shot receive fails), `process` behaves exactly as in
the channel-send-failure outcome: one `GeneralFailure`/wildcard
`Response`, then the `ConnectionManager` error. -/
theorem c10_recv_error (asReply : ε → Reply) (auth : Socks5AuthMethod)
    (s : Script ε) (tr0 : List Event) (req : Request)
    (hh : handshake auth s = (.ok true, tr0))
    (hr : s.reqRead = .ok req) (hsend : s.sendOk = true)
    (hacc : s.acceptor = .recvError) (hw : s.resWrite = none) :
    process asReply auth s =
      (.error Socks5ConnectionError.ConnectionManager,
        tr0 ++ [Event.readRequest req, Event.sendRequest req.command req.address,
          Event.writeResponse (Response.new Reply.GeneralFailure wildcardAddr)]) := by
  simp [process, hh, hr, hsend, hacc, hw]

/-- Witness for C10 at a concrete script whose acceptor is dropped. -/
theorem c10_recv_error_witness :
    process (fun _ : Unit => Reply.HostUnreachable) Socks5AuthMethod.NONE
        (⟨.ok ⟨[0x00]⟩, none, .ok ⟨"", ""⟩, none,
          .ok ⟨.Connect, .Ipv4 127 0 0 1 80⟩, true, .recvError, none⟩ :
          Script Unit) =
      (.error Socks5ConnectionError.ConnectionManager,
        [Event.readHandshake ⟨[0x00]⟩, Event.writeHandshake 0x00] ++
          [Event.readRequest ⟨.Connect, .Ipv4 127 0 0 1 80⟩,
            Event.sendRequest Command.Connect (.Ipv4 127 0 0 1 80),
            Event.writeResponse (Response.new Reply.GeneralFailure wildcardAddr)]) :=
  c10_recv_error (fun _ : Unit => Reply.HostUnreachable)
    Socks5AuthMethod.NONE
    ⟨.ok ⟨[0x00]⟩, none, .ok ⟨"", ""⟩, none,
      .ok ⟨.Connect, .Ipv4 127 0 0 1 80⟩, true, .recvError, none⟩
    [Event.readHandshake ⟨[0x00]⟩, Event.writeHandshake 0x00]
    ⟨.Connect, .Ipv4 127 0 0 1 80⟩
    rfl rfl rfl rfl rfl

/-- C1 counterexample: on a connection whose handshake fails (selected
method `NONE`, client offers only `0x02`), `process` returns `Ok` having
read zero Requests and written zero Responses — not exactly one of each,
refuting the per-connection exactly-once claim as stated. -/
theorem c1_counterexample :
    (process (fun _ : Unit => Reply.GeneralFailure) Socks5AuthMethod.NONE
      (⟨.ok ⟨[0x02]⟩, none, .ok ⟨"", ""⟩, none,
        .ok ⟨.Connect, .Ipv4 1 2 3 4 80⟩, true, .streams, none⟩ :
        Script Unit)).1 = .ok () ∧
    countRequests (process (fun _ : Unit => Reply.GeneralFailure)
      Socks5AuthMethod.NONE
      (⟨.ok ⟨[0x02]⟩, none, .ok ⟨"", ""⟩, none,
        .ok ⟨.Connect, .Ipv4 1 2 3 4 80⟩, true, .streams, none⟩ :
        Script Unit)).2 = 0 ∧
    countResponses (process (fun _ : Unit => Reply.GeneralFailure)
      Socks5AuthMethod.NONE
      (⟨.ok ⟨[0x02]⟩, none, .ok ⟨"", ""⟩, none,
        .ok ⟨.Connect, .Ipv4 1 2 3 4 80⟩, true, .streams, none⟩ :
        Script Unit)).2 = 0 :=
  ⟨rfl, rfl, rfl⟩

/-- C1 (amended): a handshake that does not complete producing `true`
means no Request is read and no Response is written; at most one Request
is read and at most one Response is written per connection; when the
handshake succeeds and the connection neither hits an I/O nor a protocol
error, exactly one Request is read and exactly one Response is written;
and the Forwarder only runs directly after a `Succeeded` Response has
been written. -/
theorem c1_process_invariants (asReply : ε → Reply) (auth : Socks5AuthMethod)
    (s : Script ε) :
    ((handshake auth s).1 ≠ .ok true →
      countRequests (process asReply auth s).2 = 0 ∧
      countResponses (process asReply auth s).2 = 0) ∧
    (countRequests (process asReply auth s).2 ≤ 1 ∧
      countResponses (process asReply auth s).2 ≤ 1) ∧
    ((handshake auth s).1 = .ok true →
      ((process asReply auth s).1 = .ok () ∨
        (process asReply auth s).1 = .error .ConnectionManager) →
      countRequests (process asReply auth s).2 = 1 ∧
      countResponses (process asReply auth s).2 = 1) ∧
    (Event.forwardRun ∈ (process asReply auth s).2 →
      ∃ pre, (process asReply auth s).2 =
        pre ++ [Event.writeResponse (Response.new Reply.Succeeded wildcardAddr),
          Event.forwardRun]) := by
  have hc := handshake_counts auth s
  cases hh : handshake auth s with
  | mk r tr =>
    rw [hh] at hc
    have hc1 : countResponses tr = 0 := hc.1
    have hc2 : countRequests tr = 0 := hc.2.1
    have hc3 : countForwards tr = 0 := hc.2.2
    have hnf : Event.forwardRun ∉ tr := forwardRun_notMem_of_count_zero hc3
    simp only [countResponses, countRequests] at hc1 hc2
    cases r with
    | error e =>
      have hp : process asReply auth s = (.error (.Socks5 e), tr) := by
        simp [process, hh]
      refine ⟨?_, ⟨?_, ?_⟩, ?_, ?_⟩ <;>
        simp [hp, hh, countRequests, countResponses, hc1, hc2, hnf]
    | ok b =>
      cases b with
      | false =>
        have hp : process asReply auth s = (.ok (), tr) := by
          simp [process, hh]
        refine ⟨?_, ⟨?_, ?_⟩, ?_, ?_⟩ <;>
          simp [hp, hh, countRequests, countResponses, hc1, hc2, hnf]
      | true =>
        cases hreq : s.reqRead with
        | error e =>
          have hp : process asReply auth s = (.error (.Socks5 e), tr) := by
            simp [process, hh, hreq]
          refine ⟨?_, ⟨?_, ?_⟩, ?_, ?_⟩ <;>
            simp [hp, hh, countRequests, countResponses, hc1, hc2, hnf]
        | ok req =>
          cases hw : s.resWrite with
          | some e =>
            have hp : process asReply auth s =
                (.error (.Socks5 e),
                  tr ++ [Event.readRequest req,
                    Event.sendRequest req.command req.address]) := by
              cases hsend : s.sendOk <;> cases hacc : s.acceptor <;>
                simp [process, hh, hreq, hw, hsend, hacc]
            refine ⟨?_, ⟨?_, ?_⟩, ?_, ?_⟩ <;>
              simp [hp, hh, countRequests, countResponses, List.countP_append,
                hc1, hc2, hnf]
          | none =>
            cases hsend : s.sendOk with
            | false =>
              have hp : process asReply auth s =
                  (.error .ConnectionManager,
                    tr ++ [Event.readRequest req,
                      Event.sendRequest req.command req.address,
                      Event.writeResponse
                        (Response.new Reply.GeneralFailure wildcardAddr)]) := by
                simp [process, hh, hreq, hw, hsend]
              refine ⟨?_, ⟨?_, ?_⟩, ?_, ?_⟩ <;>
                simp [hp, hh, countRequests, countResponses, List.countP_append,
                  hc1, hc2, hnf]
            | true =>
              cases hacc : s.acceptor with
              | streams =>
                have hp : process asReply auth s =
                    (.ok (),
                      tr ++ [Event.readRequest req,
                        Event.sendRequest req.command req.address,
                        Event.writeResponse
                          (Response.new Reply.Succeeded wildcardAddr),
                        Event.forwardRun]) := by
                  simp [process, hh, hreq, hw, hsend, hacc]
                refine ⟨?_, ⟨?_, ?_⟩, ?_, fun _ =>
                  ⟨tr ++ [Event.readRequest req,
                    Event.sendRequest req.command req.address], ?_⟩⟩ <;>
                  simp [hp, hh, countRequests, countResponses,
                    List.countP_append, hc1, hc2, hnf]
              | failure err =>
                have hp : process asReply auth s =
                    (.ok (),
                      tr ++ [Event.readRequest req,
                        Event.sendRequest req.command req.address,
                        Event.writeResponse (Response.new
                          (connErrReply asReply err) wildcardAddr)]) := by
                  simp [process, hh, hreq, hw, hsend, hacc]
                refine ⟨?_, ⟨?_, ?_⟩, ?_, ?_⟩ <;>
                  simp [hp, hh, countRequests, countResponses,
                    List.countP_append, hc1, hc2, hnf]
              | recvError =>
                have hp : process asReply auth s =
                    (.error .ConnectionManager,
                      tr ++ [Event.readRequest req,
                        Event.sendRequest req.command req.address,
                        Event.writeResponse
                          (Response.new Reply.GeneralFailure wildcardAddr)]) := by
                  simp [process, hh, hreq, hw, hsend, hacc]
                refine ⟨?_, ⟨?_, ?_⟩, ?_, ?_⟩ <;>
                  simp [hp, hh, countRequests, countResponses,
                    List.countP_append, hc1, hc2, hnf]

/-- Witness for C1 at a concrete authenticated, successful connection. -/
theorem c1_process_invariants_witness :
    countRequests (process (fun _ : Unit => Reply.HostUnreachable)
      Socks5AuthMethod.NONE
      (⟨.ok ⟨[0x00]⟩, none, .ok ⟨"", ""⟩, none,
        .ok ⟨.Connect, .Domain "a" 1⟩, true, .streams, none⟩ :
        Script Unit)).2 = 1 ∧
    countResponses (process (fun _ : Unit => Reply.HostUnreachable)
      Socks5AuthMethod.NONE
      (⟨.ok ⟨[0x00]⟩, none, .ok ⟨"", ""⟩, none,
        .ok ⟨.Connect, .Domain "a" 1⟩, true, .streams, none⟩ :
        Script Unit)).2 = 1 :=
  (c1_process_invariants (fun _ : Unit => Reply.HostUnreachable)
    Socks5AuthMethod.NONE
    ⟨.ok ⟨[0x00]⟩, none, .ok ⟨"", ""⟩, none,
      .ok ⟨.Connect, .Domain "a" 1⟩, true, .streams, none⟩).2.2.1
    rfl (Or.inl rfl)

/-- C9: `Socks5Server::new` selects `PASSWORD` with the configured pair
iff both username and password are configured, else `NONE`. -/
theorem c9_auth_method_selection (config : Config) :
    socks5ServerNewAuthMethod config =
      match config.username, config.password with
      | some u, some p => Socks5AuthMethod.PASSWORD u p
      | _, _ => Socks5AuthMethod.NONE := by
  obtain ⟨u, p⟩ := config
  cases u <;> cases p <;> simp [socks5ServerNewAuthMethod]

/-- C7 counterexample: under `tokio::try_join!`, a copy direction that
needs five polls to reach its own end-of-stream executes none of them
when the other direction fails on its first poll: it is cancelled early,
refuting the claim that each direction ends only at its own
end-of-stream or its own I/O error. -/
theorem c7_counterexample :
    (tryJoinExec ⟨1, false⟩ ⟨5, true⟩).2 = 0 ∧
    (tryJoinExec ⟨1, false⟩ ⟨5, true⟩).2 < (⟨5, true⟩ : CopyDir).polls := by
  decide

/-- C7 (amended): the two copy directions are polled concurrently; when
both end at their own end-of-stream the join waits for both and each
runs to natural termination; but when one direction fails while the
other is unfinished, `try_join!` returns at that error and the other
direction is cancelled early; forwarding errors are swallowed —
`process` still returns `Ok` after forwarding. -/
theorem c7_forward_amended (a b : CopyDir) (asReply : ε → Reply)
    (auth : Socks5AuthMethod) (s : Script ε) (tr0 : List Event) (req : Request)
    (hh : handshake auth s = (.ok true, tr0))
    (hr : s.reqRead = .ok req) (hsend : s.sendOk = true)
    (hacc : s.acceptor = .streams) (hw : s.resWrite = none) :
    (a.ok = true → b.ok = true → tryJoinExec a b = (a.polls, b.polls)) ∧
    (a.ok = false → 0 < a.polls → a.polls ≤ b.polls →
      (tryJoinExec a b).2 < b.polls) ∧
    (b.ok = false → b.polls < a.polls → (tryJoinExec a b).1 < a.polls) ∧
    (process asReply auth s).1 = .ok () := by
  refine ⟨?_, ?_, ?_, ?_⟩
  · intro h1 h2
    simp [tryJoinExec, h1, h2]
  · intro h1 h2 h3
    simp [tryJoinExec, h1, h3]
    omega
  · intro h1 h2
    have h3 : ¬ a.polls ≤ b.polls := by omega
    simp [tryJoinExec, h1, h3]
  · simp [process, hh, hr, hsend, hacc, hw]

/-- Witness for C7 at concrete copy directions and a concrete script. -/
theorem c7_forward_amended_witness :
    ((⟨2, true⟩ : CopyDir).ok = true → (⟨3, true⟩ : CopyDir).ok = true →
      tryJoinExec ⟨2, true⟩ ⟨3, true⟩ =
        ((⟨2, true⟩ : CopyDir).polls, (⟨3, true⟩ : CopyDir).polls)) ∧
    ((⟨2, true⟩ : CopyDir).ok = false → 0 < (⟨2, true⟩ : CopyDir).polls →
      (⟨2, true⟩ : CopyDir).polls ≤ (⟨3, true⟩ : CopyDir).polls →
      (tryJoinExec ⟨2, true⟩ ⟨3, true⟩).2 < (⟨3, true⟩ : CopyDir).polls) ∧
    ((⟨3, true⟩ : CopyDir).ok = false →
      (⟨3, true⟩ : CopyDir).polls < (⟨2, true⟩ : CopyDir).polls →
      (tryJoinExec ⟨2, true⟩ ⟨3, true⟩).1 < (⟨2, true⟩ : CopyDir).polls) ∧
    (process (fun _ : Unit => Reply.HostUnreachable) Socks5AuthMethod.NONE
      (⟨.ok ⟨[0x00]⟩, none, .ok ⟨"", ""⟩, none,
        .ok ⟨.Connect, .Domain "a" 1⟩, true, .streams, none⟩ :
        Script Unit)).1 = .ok () :=
  c7_forward_amended ⟨2, true⟩ ⟨3, true⟩
    (fun _ : Unit => Reply.HostUnreachable) Socks5AuthMethod.NONE
    ⟨.ok ⟨[0x00]⟩, none, .ok ⟨"", ""⟩, none,
      .ok ⟨.Connect, .Domain "a" 1⟩, true, .streams, none⟩
    [Event.readHandshake ⟨[0x00]⟩, Event.writeHandshake 0x00]
    ⟨.Connect, .Domain "a" 1⟩
    rfl rfl rfl rfl rfl

/-- With every element of `pre` accepted, `takeWhile` over
`pre ++ x :: post` stops exactly at `x` when `x` fails the predicate. -/
theorem takeWhile_all_append (p : Except IoErr Nat → Bool)
    (pre post : List (Except IoErr Nat)) (x : Except IoErr Nat)
    (hx : p x = false) :
    (∀ a ∈ pre, p a = true) → (pre ++ x :: post).takeWhile p = pre := by
  induction pre with
  | nil =>
    intro _
    simp [List.takeWhile, hx]
  | cons y ys ih =>
    intro hpre
    have hy : p y = true := hpre y (by simp)
    simp only [List.cons_append, List.takeWhile, List.append_eq, hy]
    rw [ih (fun a ha => hpre a (by simp [ha]))]

/-- C8 counterexample: with a successful bind and accept outcomes
`[error, ok]`, `run` returns `Ok` and spawns no handler — the loop does
not continue past the first accept error — while the same successful
accept alone does get a handler. -/
theorem c8_counterexample :
    socks5ServerRun none [.error 7, .ok 1] = (.ok (), []) ∧
    socks5ServerRun none [.ok 1] = (.ok (), [1]) :=
  ⟨rfl, rfl⟩

/-- C8 (amended): bind failure is the only error result of `run`; with a
successful bind the accept loop spawns one handler per stream accepted
before the first accept error and then exits returning `Ok`, never
processing any accept outcome after the error. -/
theorem c8_accept_loop (e b : IoErr)
    (accepts pre post : List (Except IoErr Nat))
    (hpre : ∀ a ∈ pre, a.toBool = true) :
    socks5ServerRun (some b) accepts = (.error (.bindFailed b), []) ∧
    socks5ServerRun none (pre ++ .error e :: post) =
      (.ok (), pre.filterMap fun a => a.toOption) := by
  refine ⟨rfl, ?_⟩
  simp only [socks5ServerRun]
  rw [takeWhile_all_append _ _ _ _ rfl hpre]

/-- Witness for C8 at a concrete accept script. -/
theorem c8_accept_loop_witness :
    socks5ServerRun (some 3) [] = (.error (.bindFailed 3), []) ∧
    socks5ServerRun none ([.ok 1] ++ .error 7 :: [.ok 2]) =
      (.ok (), ([.ok 1] : List (Except IoErr Nat)).filterMap fun a =>
        a.toOption) :=
  c8_accept_loop 7 3 [] [.ok 1] [.ok 2] (by decide)

end Tuic
